import Mathlib

/-!
Verification development for the deterministic-plinko repository
(`src/main.js`).

The JavaScript source is shallowly embedded over the rationals: every JS
number is modelled as a `ℚ` (the source only performs field operations,
`Math.floor`, `Math.round`, `Math.min`, `Math.max`, `Math.abs` and
`Math.sign` on the values the claims are about).  The irrational library
functions `Math.sqrt`, `Math.cos`, `Math.sin`, `Math.atan2` — used only
inside the peg-collision branches of `generateAnimationPath` — are kept
abstract as a structure `SimMath` of uninterpreted functions, so that a
theorem can either quantify over them or instantiate them.  On every
concrete run evaluated below, the ball never comes within the collision
radius of any peg (all pegs have `y ≤ 546` while the ball stays at
`y ≥ 871`), so the only fact about `Math.sqrt` those runs use is that the
computed squared distance compares with `36²` the way its square root
compares with `36`; the instantiation `mathStub` is exact on that
comparison, and the runs are re-checked against a second, very different
instantiation `mathStub2` to confirm the oracle values are never consumed.

`Math.random()` is modelled as an explicit stream `rng : ℕ → ℚ` of draws
together with a cursor that every sampling operation advances; a stream is
a legal randomness source when every draw lies in `[0, 1)`.  The concrete
runs use the constant stream `half` (every draw is `1/2`, a legal value).

Where the source dereferences an `undefined` value (a JavaScript
`TypeError`), or assigns to a `const` binding (also a `TypeError`), the
model returns `none` / reports a thrown exception explicitly.
-/

namespace Plinko

/-- JS `Math.round` (round half toward positive infinity). -/
def jsRound (q : ℚ) : ℤ := Int.floor (q + 1/2)

/-- JS `Math.sign`. -/
def jsSign (q : ℚ) : ℚ := if 0 < q then 1 else if q < 0 then -1 else 0

/-- Index a list the way a JS array access `a[i]` behaves for a possibly
negative index: out-of-range accesses yield `undefined` (`none`). -/
def jsIndex {α : Type} (l : List α) (i : ℤ) : Option α :=
  if h : 0 ≤ i ∧ i.toNat < l.length then some (l.get ⟨i.toNat, h.2⟩) else none

/-! ## Board layout (`resizeCanvas`, `initPegs`, `initBuckets`) -/

/-- The per-canvas sizes `resizeCanvas` computes (src/main.js lines 95-107):
`width = min(containerWidth - 20, 800)`, `height = width * 1.3`, and the
three `Math.floor`-derived config values.  No minimum is applied anywhere. -/
structure ResizeResult where
  width : ℚ
  height : ℚ
  pegSpacing : ℤ
  pegRadius : ℤ
  ballRadius : ℤ
deriving Repr, DecidableEq

/-- Model of `resizeCanvas` (the pure computation on the measured
container width; the subsequent `initPegs`/`initBuckets` calls are
modelled separately and consume these values). -/
def resizeCanvas (containerWidth : ℚ) : ResizeResult :=
  let width := min (containerWidth - 20) 800
  { width := width
    height := width * (13/10)
    pegSpacing := Int.floor (width / 16)
    pegRadius := Int.floor (width / 100)
    ballRadius := Int.floor (width / 60) }

/-- A peg as stored in `pegLocations` (only the fields the trajectory
engine reads: position and radius). -/
structure Peg where
  x : ℚ
  y : ℚ
  r : ℚ
deriving Repr, DecidableEq

/-- `pegsInRow` from `initPegs` (src/main.js line 157):
`Math.max(1, Math.min(Math.round(1 + progressRatio * (maxRowPegs - 1)), maxRowPegs))`
with `progressRatio = row / (pegRows - 1)`, `pegRows = 9`, `maxRowPegs = 11`. -/
def pegsInRow (row : ℕ) : ℕ :=
  (max 1 (min (jsRound (1 + ((row : ℚ) / 8) * 10)) 11)).toNat

/-- Model of `initPegs` (src/main.js lines 132-183): a 9-row triangular
grid, horizontal spacing `width/12`, vertical spacing `0.866` times that,
first row at `height * 0.08`, each row centred at `width/2`.  `pegR` is
`GAME_CONFIG.pegRadius` as set by `resizeCanvas`. -/
def initPegs (w h pegR : ℚ) : List Peg :=
  (List.range 9).flatMap (fun row =>
    let horizontalSpacing := w / 12
    let verticalSpacing := horizontalSpacing * (433/500)
    let n := pegsInRow row
    let rowStartX := w / 2 - ((n : ℚ) - 1) * horizontalSpacing / 2
    (List.range n).map (fun i =>
      { x := rowStartX + (i : ℚ) * horizontalSpacing
        y := h * (2/25) + (row : ℚ) * verticalSpacing
        r := pegR }))

/-- A bucket as stored in `bucketLocations` (the fields the engine
reads). -/
structure Bucket where
  x : ℚ
  y : ℚ
  width : ℚ
  height : ℚ
  number : ℕ
deriving Repr, DecidableEq

/-- Model of `initBuckets` (src/main.js lines 186-225): five equal
buckets across the canvas, `bucketWidth = width / 5`, centred at
`(i + 0.5) * bucketWidth`, top at `height * 0.84`, height
`height * 0.18`. -/
def initBuckets (w h : ℚ) : List Bucket :=
  (List.range 5).map (fun (i : ℕ) =>
    { x := ((i : ℚ) + 1/2) * (w / 5)
      y := h * (21/25)
      width := w / 5
      height := h * (9/50)
      number := i + 1 })

/-- The live board used by all concrete runs: canvas `800 × 1040`
(the maximal canvas, `width = 800`, `height = 800 * 1.3`), for which
`resizeCanvas` yields `pegRadius = 8` and `ballRadius = 13`. -/
def pegs800 : List Peg := initPegs 800 1040 8

def buckets800 : List Bucket := initBuckets 800 1040

/-! ## The trajectory synthesizer (`generateAnimationPath`) -/

/-- The irrational library functions the collision branches use, kept
abstract (`Math.sqrt`, `Math.cos`, `Math.sin`, `Math.atan2`). -/
structure SimMath where
  sqrt : ℚ → ℚ
  cos : ℚ → ℚ
  sin : ℚ → ℚ
  atan2 : ℚ → ℚ → ℚ

/-- A stream of `Math.random()` draws, consumed left to right. -/
abbrev RStream := ℕ → ℚ

/-- The constant stream whose every draw is `1/2` (a legal
`Math.random()` value). -/
def half : RStream := fun _ => 1/2

/-- A keyframe `{x, y, time}` of the animation path. -/
structure KF where
  x : ℚ
  y : ℚ
  time : ℚ
deriving Repr, DecidableEq

/-- The read-only context of one `generateAnimationPath` call. -/
structure SimEnv where
  M : SimMath
  rng : RStream
  pegs : List Peg
  canvasW : ℚ
  ballRadius : ℚ
  startY : ℚ
  targetX : ℚ
  targetY : ℚ
  targetIdx : ℤ
  bucketW : ℚ
  totalDur : ℚ
  ts : ℚ

/-- The mutable locals threaded through the simulation loop; `valid` is
`isValidPath`, `dur` is the global `animationDuration`, `k` is the
randomness cursor, `done` records that the loop `break` fired. -/
structure SimSt where
  path : List KF
  x : ℚ
  y : ℚ
  vx : ℚ
  vy : ℚ
  hitCount : ℕ
  hitWall : Bool
  lastHit : Option ℚ
  valid : Bool
  dur : ℚ
  k : ℕ
  done : Bool
deriving Repr

/-- State threaded through the peg-deflection `forEach` (simulation
step 3, src/main.js lines 1402-1446). -/
structure DeflSt where
  x : ℚ
  y : ℚ
  vx : ℚ
  vy : ℚ
  lastHit : Option ℚ
  k : ℕ
deriving Repr

/-- One peg of the deflection `forEach`: push the position out along the
contact normal, record the hit time, and apply a randomly jittered
deflection impulse with a minimum downward velocity. -/
def deflectPeg (E : SimEnv) (time : ℚ) (st : DeflSt) (p : Peg) : DeflSt :=
  let pDx := st.x - p.x
  let pDy := st.y - p.y
  let dist := E.M.sqrt (pDx * pDx + pDy * pDy)
  let minDist := p.r + E.ballRadius * 2 + 2
  if dist < minDist then
    let overlap := minDist - dist
    let angle := E.M.atan2 pDy pDx
    let x := st.x + E.M.cos angle * overlap * (11/10)
    let y := st.y + E.M.sin angle * overlap * (11/10)
    let r1 := E.rng st.k
    let deflectAngle := angle + (r1 - 1/2) * 1
    let r2 := E.rng (st.k + 1)
    let (deflectAngle, k) :=
      if r2 < 1/5 then (deflectAngle + (E.rng (st.k + 2) - 1/2) * (3/2), st.k + 3)
      else (deflectAngle, st.k + 2)
    let deflectStrength := 1/2 + E.rng k * (6/5)
    let horizontalFactor := 4/5 + E.rng (k + 1) * (4/5)
    let verticalFactor := 3/5 + E.rng (k + 2) * (4/5)
    let vx := st.vx + E.M.cos deflectAngle * deflectStrength * horizontalFactor
    let vy := st.vy + E.M.sin deflectAngle * deflectStrength * verticalFactor
    let vy := max (4/5) vy
    ⟨x, y, vx, vy, some time, k + 3⟩
  else st

/-- One peg of the push-out accumulation (simulation step 7,
src/main.js lines 1532-1546): total push applied after checking all
pegs. -/
def pushOut (E : SimEnv) (x y : ℚ) (acc : ℚ × ℚ) (p : Peg) : ℚ × ℚ :=
  let pDx := x - p.x
  let pDy := y - p.y
  let dist := E.M.sqrt (pDx * pDx + pDy * pDy)
  let minDist := p.r + E.ballRadius * 2 + 2
  if dist < minDist then
    let overlap := minDist - dist
    let angle := E.M.atan2 pDy pDx
    (acc.1 + E.M.cos angle * overlap * (21/20), acc.2 + E.M.sin angle * overlap * (21/20))
  else acc

/-- Simulation step 8: the per-step hit counter (`hitCount` is reset to
zero and recounted at every step, src/main.js lines 1554-1564). -/
def hitCountAt (E : SimEnv) (x y : ℚ) : ℕ :=
  E.pegs.countP (fun p =>
    let pDx := x - p.x
    let pDy := y - p.y
    E.M.sqrt (pDx * pDx + pDy * pDy) < p.r + E.ballRadius * 2 + 2)

/-- One iteration `i` (1-based) of the 150-step path-generation loop
(src/main.js lines 1372-1580). -/
def simStep (E : SimEnv) (i : ℕ) (s : SimSt) : SimSt :=
  if s.done then s else
  let time := (i : ℚ) * E.ts
  -- 1. gravity
  let vy := s.vy + (3/10) * (E.ts / 16)
  -- 2. horizontal pull toward the target: `pullStrength` is hard-coded
  --    to zero (line 1385); the two dampening branches are kept verbatim
  let dxToTarget := E.targetX - s.x
  let pullStrength : ℚ := 0
  let pullStrength := match s.lastHit with
    | some lh => if time - lh < 180 then pullStrength * (1/10) else pullStrength
    | none => pullStrength
  let pullStrength := match s.lastHit with
    | some lh => if lh < time then pullStrength * (1/5) else pullStrength
    | none => pullStrength
  let vx := s.vx + dxToTarget * pullStrength * (E.ts / 16)
  -- 3. peg deflections
  let d := E.pegs.foldl (deflectPeg E time) ⟨s.x, s.y, vx, vy, s.lastHit, s.k⟩
  -- 4. damping and vertical clamp
  let vx := d.vx * (197/200)
  let vy := d.vy * (99/100)
  let vy := min vy 15
  -- 5. position update
  let x := d.x + vx * (E.ts / 16)
  let y := d.y + vy * (E.ts / 16)
  -- 6. wall bounces, then the top clamp
  let wall := if x - E.ballRadius < 0 then (E.ballRadius, vx * (-(3/5)))
    else if E.canvasW < x + E.ballRadius then (E.canvasW - E.ballRadius, vx * (-(3/5)))
    else (x, vx)
  let x := wall.1
  let vx := wall.2
  let y := if y < E.startY then E.startY else y
  if E.targetY ≤ y then
    -- the ball crossed the bucket top: interpolate the landing point,
    -- run the in-loop validity checks, record the final keyframe and
    -- the exact duration, and break out of the loop
    let prev := s.path.getLastD ⟨0, 0, 0⟩
    let dyTotal := y - prev.y
    let dyNeeded := E.targetY - prev.y
    let t := if dyTotal = 0 then 1 else max 0 (min 1 (dyNeeded / dyTotal))
    let finalX := prev.x + (x - prev.x) * t
    let finalTime := prev.time + (time - prev.time) * t
    let bucketLeft := E.targetX - E.bucketW / 2
    let bucketRight := E.targetX + E.bucketW / 2
    let safetyMargin := E.bucketW * (1/10)
    let safeLeft := bucketLeft + safetyMargin
    let safeRight := bucketRight - safetyMargin
    let valid :=
      if finalX < safeLeft ∨ safeRight < finalX then false
      else if 2 < |x - prev.x| then false
      else s.valid
    { s with path := s.path ++ [⟨finalX, E.targetY, finalTime⟩],
             x := x, y := y, vx := vx, vy := vy,
             lastHit := d.lastHit, k := d.k,
             valid := valid, dur := finalTime, done := true }
  else
    -- 7. push the recorded point out of any peg radius
    let push := E.pegs.foldl (pushOut E x y) (0, 0)
    let x := x + push.1
    let y := y + push.2
    -- 8. per-step hit count and wall-contact flag
    let hitCount := hitCountAt E x y
    let hitWall := s.hitWall || (x ≤ E.ballRadius || E.canvasW - E.ballRadius ≤ x)
    if i < 150 then
      { s with path := s.path ++ [⟨x, y, time⟩],
               x := x, y := y, vx := vx, vy := vy,
               hitCount := hitCount, hitWall := hitWall,
               lastHit := d.lastHit, k := d.k }
    else
      -- loop finished all 150 steps without crossing: force the last
      -- point to the target and set the full duration
      let path :=
        if (s.path.getLastD ⟨0, 0, 0⟩).y < E.targetY
        then s.path ++ [⟨E.targetX, E.targetY, E.totalDur⟩]
        else s.path
      { s with path := path, x := x, y := y, vx := vx, vy := vy,
               hitCount := hitCount, hitWall := hitWall,
               lastHit := d.lastHit, k := d.k, dur := E.totalDur }

/-- Run the 150 simulation steps (the loop exits early via the `done`
flag once the crossing `break` fired). -/
def runSteps (E : SimEnv) (s0 : SimSt) : SimSt :=
  (List.range 150).foldl (fun s j => simStep E (j + 1) s) s0

/-- Attempt initialisation (src/main.js lines 1303-1369): reset the
path and position, choose the biased-plus-random initial velocity.
`valid0`/`dur0` are the incoming values of the persistent locals
`isValidPath`/`animationDuration`. -/
def setupAttempt (E : SimEnv) (startX : ℚ) (retries : ℕ) (valid0 : Bool)
    (dur0 : ℚ) (k : ℕ) : SimSt :=
  let distanceToTarget := E.targetX - startX
  let edgeFactor : ℚ :=
    if E.targetIdx = 1 ∨ E.targetIdx = 5 then 1
    else if E.targetIdx = 2 ∨ E.targetIdx = 4 then 7/10
    else 2/5
  let baseVelocity := jsSign distanceToTarget * min (|distanceToTarget| / 100) (3/2) * edgeFactor
  let attemptVariation := ((retries % 3 : ℕ) : ℚ) * (1/2)
  let randomFactor := (1 - |edgeFactor - 1/2|) * (3/2) + attemptVariation
  let a := E.rng k
  let s1 :=
    if a < 3/10 then
      (baseVelocity * (1 + E.rng (k + 1)) + (E.rng (k + 2) - 1/2) * (5/2), k + 3)
    else
      (baseVelocity + (E.rng (k + 1) - 1/2) * randomFactor, k + 2)
  let vx := s1.1
  let k := s1.2
  let s2 :=
    if E.targetIdx = 1 ∧ -(1/5) < vx then (vx - (1/2 + E.rng k * (1/2)), k + 1)
    else if E.targetIdx = 5 ∧ vx < 1/5 then (vx + (1/2 + E.rng k * (1/2)), k + 1)
    else (vx, k)
  let vx := s2.1
  let k := s2.2
  let verticalVariation : ℚ := if E.rng k < 3/10 then 4/5 else 2/5
  let k := k + 1
  let baseVertical := 4/5 + edgeFactor * (2/5)
  let vy := baseVertical + E.rng k * verticalVariation
  let k := k + 1
  let s3 :=
    if E.rng k < 3/20 then (baseVertical + 1/2 + E.rng (k + 1) * (4/5), k + 2)
    else (vy, k + 1)
  let vy := s3.1
  let k := s3.2
  { path := [⟨startX, E.startY, 0⟩], x := startX, y := E.startY,
    vx := vx, vy := vy, hitCount := 0, hitWall := false, lastHit := none,
    valid := valid0, dur := dur0, k := k, done := false }

/-- The post-attempt validation gate (src/main.js lines 1583-1616).
Note line 1584 resets `isValidPath` to `true` unconditionally, so the
in-loop rejections (landing outside the safety margin, excessive final
horizontal velocity) are discarded here; only the edge-bucket wall/hit
check and the final-direction check can still reject. -/
def validateAttempt (E : SimEnv) (s : SimSt) : Bool :=
  let valid := true
  let isEdge := E.targetIdx = 1 ∨ E.targetIdx = 5
  let valid := if isEdge ∧ s.hitWall ∧ s.hitCount < 4 then false else valid
  if valid ∧ 3 ≤ s.path.length then
    let lastPoint := s.path.getLastD ⟨0, 0, 0⟩
    let secondLast := s.path.dropLast.getLastD ⟨0, 0, 0⟩
    let finalVx := lastPoint.x - secondLast.x
    let neededDx := E.targetX - secondLast.x
    let bucketWidth := E.canvasW / 5
    let offTargetThreshold := bucketWidth * (3/10)
    if offTargetThreshold < |neededDx| ∧ jsSign finalVx ≠ 0 ∧ jsSign finalVx ≠ jsSign neededDx
    then false else valid
  else valid

/-- The `do … while (!isValidPath && retries < maxRetries)` retry loop
(`maxRetries = 100`), recursing on explicit fuel.  On a failed attempt
one more draw is consumed for the fresh `currentVx` of the retry block
(src/main.js lines 1619-1630).  Returns the final simulation state (its
`k` is the final cursor) and whether an attempt was accepted. -/
def runAttempts (E : SimEnv) (startX : ℚ) :
    ℕ → ℕ → Bool → ℚ → ℕ → SimSt × Bool
  | 0, _, _, dur0, k =>
    ({ path := [], x := 0, y := 0, vx := 0, vy := 0, hitCount := 0,
       hitWall := false, lastHit := none, valid := false, dur := dur0,
       k := k, done := true }, false)
  | fuel + 1, retries, valid0, dur0, k =>
    let s := runSteps E (setupAttempt E startX retries valid0 dur0 k)
    if validateAttempt E s then ({ s with valid := true }, true)
    else
      let retries' := retries + 1
      let k' := s.k + 1
      if retries' < 100 then runAttempts E startX fuel retries' false s.dur k'
      else ({ s with valid := false, k := k' }, false)

/-- The outcome of one `generateAnimationPath` call.  `path = none`
means the call threw a `TypeError`; `dur` is the global
`animationDuration` after the call (mutations survive a throw);
`hitWall`, `hitCount` and `accepted` expose the final values of the
correspondingly named locals for runs that reach the retry loop. -/
structure GenResult where
  path : Option (List KF)
  dur : ℚ
  hitWall : Bool
  hitCount : ℕ
  accepted : Bool
  k : ℕ
deriving Repr, DecidableEq

/-- Model of `generateAnimationPath(startX, startY, targetBucketIndex)`
(src/main.js lines 1276-1696) over a given board.

* An invalid target bucket returns the two-point straight-down fallback
  path immediately (lines 1280-1283) without touching
  `animationDuration`.
* Otherwise the randomized total duration is drawn, and up to 100
  attempts are simulated and validated.
* If every retry fails, the fallback block executes `path = [];
  retries = 0; maxRetries = 50;` — but `maxRetries` is a `const`
  binding (line 1297), so the assignment on line 1643 raises
  `TypeError: Assignment to constant variable` and the call throws
  (`path := none`), keeping the `animationDuration` already written by
  the last failed attempt. -/
def generateAnimationPath (M : SimMath) (rng : RStream)
    (pegs : List Peg) (buckets : List Bucket) (canvasW canvasH ballR : ℚ)
    (startX startY : ℚ) (targetBucketIndex : ℤ) (dur0 : ℚ) (k : ℕ) : GenResult :=
  let targetBucketOpt := jsIndex buckets (targetBucketIndex - 1)
  if hb : targetBucketOpt.isSome then
    let targetBucket := targetBucketOpt.get hb
    let totalDur := 2500 + rng k * 1000
    let k := k + 1
    let E : SimEnv :=
      { M := M, rng := rng, pegs := pegs, canvasW := canvasW,
        ballRadius := ballR, startY := startY,
        targetX := targetBucket.x, targetY := targetBucket.y,
        targetIdx := targetBucketIndex, bucketW := targetBucket.width,
        totalDur := totalDur, ts := totalDur / 150 }
    let r := runAttempts E startX 101 0 false dur0 k
    let s := r.1
    if r.2 then
      { path := some s.path, dur := s.dur, hitWall := s.hitWall,
        hitCount := s.hitCount, accepted := true, k := s.k }
    else
      { path := none, dur := s.dur, hitWall := s.hitWall,
        hitCount := s.hitCount, accepted := false, k := s.k }
  else
    { path := some [⟨startX, startY, 0⟩, ⟨startX, canvasH + 50, 1000⟩],
      dur := dur0, hitWall := false, hitCount := 0, accepted := false, k := k }

/-- `generateAnimationPath` on the live `800 × 1040` board. -/
def generateAnimationPath800 (M : SimMath) (rng : RStream)
    (startX startY : ℚ) (targetBucketIndex : ℤ) (dur0 : ℚ) (k : ℕ) : GenResult :=
  generateAnimationPath M rng pegs800 buckets800 800 1040 13
    startX startY targetBucketIndex dur0 k

/-! ## The playback driver (`updateBallAnimation`, position logic) -/

/-- The segment-search loop of `updateBallAnimation` (src/main.js lines
845-861): find the first `i` with `time_i ≤ elapsed < time_{i+1}`. -/
def findSeg : List KF → ℚ → Option (KF × KF)
  | a :: b :: rest, e =>
    if a.time ≤ e ∧ e < b.time then some (a, b) else findSeg (b :: rest) e
  | _, _ => none

/-- Segment interpolation (src/main.js lines 863-883): interpolation
factor `t` guarded against a zero-length segment, then clamped to
`[0, 1]`, then linear interpolation of `x` and `y`. -/
def interp (s en : KF) (e : ℚ) : ℚ × ℚ :=
  let segmentDuration := en.time - s.time
  let timeIntoSegment := e - s.time
  let t0 : ℚ :=
    if 0 < segmentDuration then timeIntoSegment / segmentDuration
    else if s.time ≤ e then 1 else 0
  let t := max 0 (min 1 t0)
  (s.x + (en.x - s.x) * t, s.y + (en.y - s.y) * t)

/-- The ball-position logic of `updateBallAnimation(currentTime)`
(src/main.js lines 701-896) as a function of the trajectory, the global
`animationDuration` and the elapsed time.  `none` models the JavaScript
`TypeError` thrown when the code dereferences an `undefined` array
element: for a path of fewer than two keyframes (and elapsed time below
the duration) the default `segmentEnd = animationPath[1]` is `undefined`
and `segmentEnd.time` throws; for an empty path the completion branch
dereferences `animationPath[-1]`. -/
def positionBelowDur (path : List KF) (e : ℚ) : Option (ℚ × ℚ) :=
  match path with
  | p0 :: p1 :: rest =>
    let seg :=
      match findSeg (p0 :: p1 :: rest) e with
      | some s => s
      | none =>
        let lastP := (p0 :: p1 :: rest).getLastD p0
        if lastP.time ≤ e then (lastP, lastP) else (p0, p1)
    some (interp seg.1 seg.2 e)
  | _ => none

def updateBallAnimationPos (path : List KF) (dur e : ℚ) : Option (ℚ × ℚ) :=
  if dur ≤ e then (path.getLast?).map (fun p => (p.x, p.y))
  else positionBelowDur path e

/-! ## The landing classifier (`updateBallAnimation`, completion branch) -/

/-- `d < minDistance` where `minDistance` may still be its initial
`Infinity` (`none`): any finite distance is below `Infinity`. -/
def jsLtInf (d : ℚ) : Option ℚ → Bool
  | none => true
  | some m => decide (d < m)

/-- The first-pass bucket scan of the completion branch (src/main.js
lines 729-750): `break` at the first bucket whose horizontal span
contains `x`; otherwise track the minimum distance to a bucket centre,
assigning `actualBucket` only while it is still `null`. -/
def scanBuckets (x : ℚ) : List Bucket → Option ℕ → Option ℚ → Option ℕ
  | [], actual, _ => actual
  | b :: rest, actual, minD =>
    if b.x - b.width / 2 ≤ x ∧ x ≤ b.x + b.width / 2 then some b.number
    else
      let d := |x - b.x|
      if jsLtInf d minD then
        scanBuckets x rest (if actual = none then some b.number else actual) (some d)
      else scanBuckets x rest actual minD

/-- The landing classifier (src/main.js lines 729-765): the scan above,
then — when the scan did not yield the target — the 40%-of-width
proximity override toward the target bucket.  `minDistance` starts at
`Infinity` (`none`). -/
def classifyLanding (buckets : List Bucket) (target : ℕ) (x : ℚ) : Option ℕ :=
  let actual := scanBuckets x buckets none none
  if actual ≠ some target then
    match jsIndex buckets ((target : ℤ) - 1) with
    | some tb => if |x - tb.x| < tb.width * (2/5) then some target else actual
    | none => actual
  else actual

/-! ## The statistics state machine
(`handleDropBall`, `handleBallLanding`, `resetBall`,
`handleBucketSelection`) -/

inductive Phase where
  | ready
  | dropping
  | completed
deriving Repr, DecidableEq

/-- The slice of the module-level game state that the statistics claims
are about. -/
structure GState where
  totalDrops : ℕ
  successfulDrops : ℕ
  lastBucketLanded : Option ℤ
  landingHandled : Bool
  isGameActive : Bool
  phase : Phase
  selectedBucket : Option ℤ
  hasBall : Bool
  hasPath : Bool
deriving Repr, DecidableEq

/-- The initial state (src/main.js lines 64-92): zero statistics, no
selection, `gameState = 'ready'`. -/
def initGState : GState :=
  { totalDrops := 0, successfulDrops := 0, lastBucketLanded := none,
    landingHandled := false, isGameActive := false, phase := .ready,
    selectedBucket := none, hasBall := false, hasPath := false }

/-- The state-changing operations the claims quantify over: selecting a
target bucket, pressing drop, the playback driver completing a drop
(with the classified bucket and its target-match flag), and reset. -/
inductive GOp where
  | select (b : ℤ)
  | drop
  | land (b : ℤ) (isTarget : Bool)
  | reset
deriving Repr, DecidableEq

/-- `handleBallLanding(bucketNumber, isTargetBucket)` (src/main.js lines
1953-1979): guarded by the `landingHandled` flag; a success increments
`successfulDrops`. -/
def handleBallLanding (s : GState) (b : ℤ) (isTarget : Bool) : GState :=
  if s.landingHandled then s
  else
    let s := { s with landingHandled := true, lastBucketLanded := some b }
    if isTarget then
      { s with successfulDrops := s.successfulDrops + 1, phase := .completed }
    else { s with phase := .completed }

/-- One operation of the state machine, mirroring the state-relevant
effects of the source handlers:

* `select`: `handleBucketSelection` (src/main.js lines 2074-2098), a
  no-op while the game is active.
* `drop`: `handleDropBall` (lines 2100-2245): rejected only when the
  game is active or no bucket is selected; it sets `isGameActive = true`
  up front (line 2108), and for a selected bucket outside `1..5` the
  direct-path construction dereferences
  `bucketLocations[selectedBucket - 1].x` (lines 2165-2166) and throws
  before any statistic is touched — the states already mutated survive.
  For a valid bucket it resets the landing flag, increments
  `totalDrops`, installs the ball and path and enters `dropping`.
* `land`: the completion branch of `updateBallAnimation` (lines
  709-842), reachable only with a ball, a path and an active game;
  calls `handleBallLanding` and then deactivates the game.
* `reset`: `handleReset`/`resetBall` (lines 1816-1876, 2247-2252):
  clears the ball, path and landing flag; statistics are kept. -/
def stepG (s : GState) : GOp → GState
  | .select b => if s.isGameActive then s else { s with selectedBucket := some b }
  | .drop =>
    match s.selectedBucket with
    | none => s
    | some sb =>
      if s.isGameActive then s
      else
        let s := { s with isGameActive := true }
        if 1 ≤ sb ∧ sb ≤ 5 then
          { s with landingHandled := false, lastBucketLanded := none,
                   phase := .dropping, totalDrops := s.totalDrops + 1,
                   hasBall := true, hasPath := true }
        else s
  | .land b isTarget =>
    if s.hasBall ∧ s.hasPath ∧ s.isGameActive then
      let s := handleBallLanding s b isTarget
      { s with isGameActive := false, phase := .completed }
    else s
  | .reset =>
    if s.isGameActive ∨ s.hasBall then
      { s with hasBall := false, hasPath := false, landingHandled := false,
               isGameActive := false, phase := .ready }
    else s

/-- Run a sequence of operations from the initial state. -/
def runG (ops : List GOp) : GState := ops.foldl stepG initGState

/-! ## `createBall` (src/main.js lines 1699-1795) -/

/-- `calculateInitialBallPosition` (src/main.js lines 1247-1273):
uniform start over the safe width, with a 30% chance of an extreme
left/right position.  Returns the position and the advanced cursor
(ball radius 13, canvas width 800: margin 39, range `[39, 761]`). -/
def calculateInitialBallPosition (rng : RStream) (k : ℕ) : ℚ × ℕ :=
  let minX : ℚ := 39
  let maxX : ℚ := 761
  let xPos := minX + rng k * (maxX - minX)
  let k := k + 1
  if rng k < 3/10 then
    if rng (k + 1) < 1/2 then (minX + rng (k + 2) * (800 * (1/4)), k + 3)
    else (800 * (3/4) + rng (k + 2) * (maxX - 800 * (3/4)), k + 3)
  else (xPos, k + 1)

/-- The outcome of a `createBall()` call: the state fields it writes
(the DOM/visual effects are outside the model).  `path` is the
`generateAnimationPath` result it stores. -/
structure CreateBallResult where
  phase : Phase
  totalDrops : ℕ
  targetBucket : ℤ
  landingHandled : Bool
  lastBucketLanded : Option ℤ
  ballX : ℚ
  path : GenResult
  k : ℕ

/-- Model of `createBall()` on the live board: sets
`gameState = 'dropping'`, increments `totalDrops`, takes the target from
`selectedBucket`, computes the random start position — and then, if
`bucketLocations[targetBucket - 1]` does not exist, **replaces the
target with the middle bucket** `Math.ceil(5 / 2) = 3` (src/main.js
lines 1754-1759) before generating the path from
`startY = canvas.height * 0.05 = 52`. -/
def createBall (M : SimMath) (rng : RStream) (selectedBucket : ℤ)
    (totalDrops0 : ℕ) (dur0 : ℚ) (k : ℕ) : CreateBallResult :=
  let p := calculateInitialBallPosition rng k
  let initialX := p.1
  let k := p.2
  let target :=
    if (jsIndex buckets800 (selectedBucket - 1)).isNone
    then (Int.ceil ((5 : ℚ) / 2)) else selectedBucket
  -- ball creation draws one more random for `velocityX`
  let k := k + 1
  let r := generateAnimationPath800 M rng initialX 52 target dur0 k
  { phase := .dropping, totalDrops := totalDrops0 + 1, targetBucket := target,
    landingHandled := false, lastBucketLanded := none, ballX := initialX,
    path := r, k := r.k }

/-! ## Concrete instantiations and named invariants

Data the theorems below share: the bucket literal the board holds at
each position, the statistics invariant, two executable stand-ins for
the browser Math object, the single `sqrt` fact the evaluated runs
consume, and the two concrete simulation environments of those runs. -/

/-- The bucket `initBuckets` places at number `n`. -/
def bucketLit (w h : ℚ) (n : ℕ) : Bucket :=
  ⟨((n : ℚ) - 1/2) * (w / 5), h * (21/25), w / 5, h * (9/50), n⟩

/-- The inductive invariant: successes never exceed drops, and while an
unhandled ball is in flight the current drop has already been counted in
`totalDrops` but not yet in `successfulDrops`. -/
def statsInv (s : GState) : Prop :=
  s.successfulDrops ≤ s.totalDrops
  ∧ (s.hasBall = true → s.landingHandled = false →
      s.successfulDrops < s.totalDrops)

/-- An instantiation of the irrational library functions whose square
root agrees with the real one on the only comparison the simulation
makes, `sqrt d < 36` (i.e. `d < 1296`).  On runs that never enter a
collision branch the other fields are never consumed. -/
def mathStub : SimMath :=
  { sqrt := fun q => if q < 1296 then 0 else 36
    cos := fun _ => 0, sin := fun _ => 0, atan2 := fun _ _ => 0 }

/-- A second, deliberately different instantiation used to confirm that
the concrete runs below never consume an oracle value beyond the
`sqrt _ < 36` comparison. -/
def mathStub2 : SimMath :=
  { sqrt := fun q => if q < 1296 then 1 else 99
    cos := fun _ => 7, sin := fun _ => 7, atan2 := fun _ _ => 7 }

/-- The only property of `Math.sqrt` the evaluated runs consume. -/
def SqrtFar (M : SimMath) : Prop := ∀ q : ℚ, 1296 ≤ q → ¬ (M.sqrt q < 36)

/-- The simulation environment `generateAnimationPath` builds for
target bucket 1 on the live board, start height 871, with the constant
`half` stream (duration draw `1/2` gives `totalDurationMs = 3000`,
`timeStep = 20`). -/
def env1 (M : SimMath) : SimEnv :=
  { M := M, rng := half, pegs := pegs800, canvasW := 800, ballRadius := 13,
    startY := 871, targetX := 80, targetY := 4368/5, targetIdx := 1,
    bucketW := 160, totalDur := 3000, ts := 20 }

/-- The same environment for target bucket 3 (centre `x = 400`). -/
def env3 (M : SimMath) : SimEnv :=
  { M := M, rng := half, pegs := pegs800, canvasW := 800, ballRadius := 13,
    startY := 871, targetX := 400, targetY := 4368/5, targetIdx := 3,
    bucketW := 160, totalDur := 3000, ts := 20 }

/-! ## C6 — bucket partition -/

lemma initBuckets_eq (w h : ℚ) : initBuckets w h =
    [⟨(1/2) * (w/5), h * (21/25), w/5, h * (9/50), 1⟩,
     ⟨(3/2) * (w/5), h * (21/25), w/5, h * (9/50), 2⟩,
     ⟨(5/2) * (w/5), h * (21/25), w/5, h * (9/50), 3⟩,
     ⟨(7/2) * (w/5), h * (21/25), w/5, h * (9/50), 4⟩,
     ⟨(9/2) * (w/5), h * (21/25), w/5, h * (9/50), 5⟩] := by
  have : List.range 5 = [0, 1, 2, 3, 4] := rfl
  simp only [initBuckets, this, List.map]
  norm_num

/-- C6: for every positive canvas width and height, `initBuckets`
produces exactly 5 bucket spans, each of width `width / 5`, whose
horizontal span is exactly `[(n-1) * width/5, n * width/5]` for bucket
number `n` — hence contiguous and non-overlapping — and which together
cover `[0, width]`. -/
theorem initBuckets_partition (w h : ℚ) (hw : 0 < w) (hh : 0 < h) :
    (initBuckets w h).length = 5
    ∧ (∀ b ∈ initBuckets w h, b.width = w / 5)
    ∧ (∀ b ∈ initBuckets w h,
        b.x - b.width / 2 = ((b.number : ℚ) - 1) * (w / 5)
        ∧ b.x + b.width / 2 = (b.number : ℚ) * (w / 5))
    ∧ (∀ b ∈ initBuckets w h, ∀ b' ∈ initBuckets w h, b.number < b'.number →
        b.x + b.width / 2 ≤ b'.x - b'.width / 2)
    ∧ (∀ q : ℚ, 0 ≤ q → q ≤ w → ∃ b ∈ initBuckets w h,
        b.x - b.width / 2 ≤ q ∧ q ≤ b.x + b.width / 2) := by
  have h5 : (0:ℚ) < w / 5 := by positivity
  refine ⟨by simp [initBuckets_eq], ?_, ?_, ?_, ?_⟩
  · intro b hb
    simp only [initBuckets_eq, List.mem_cons, List.not_mem_nil, or_false] at hb
    rcases hb with h | h | h | h | h <;> subst h <;> norm_num
  · intro b hb
    simp only [initBuckets_eq, List.mem_cons, List.not_mem_nil, or_false] at hb
    rcases hb with h | h | h | h | h <;> subst h <;> constructor <;> push_cast <;> ring
  · intro b hb b' hb'
    simp only [initBuckets_eq, List.mem_cons, List.not_mem_nil, or_false] at hb hb'
    rcases hb with h | h | h | h | h <;> subst h <;>
      rcases hb' with h' | h' | h' | h' | h' <;> subst h' <;>
      intro hlt <;> first
        | omega
        | (push_cast; nlinarith)
  · intro q hq0 hqw
    rcases le_or_lt q (1 * (w / 5)) with h1 | h1
    · exact ⟨_, by rw [initBuckets_eq]; exact List.mem_cons_self _ _,
        by push_cast; nlinarith, by push_cast; nlinarith⟩
    · rcases le_or_lt q (2 * (w / 5)) with h2 | h2
      · refine ⟨⟨(3/2) * (w/5), h * (21/25), w/5, h * (9/50), 2⟩, ?_, ?_, ?_⟩
        · rw [initBuckets_eq]; simp
        · push_cast; nlinarith
        · push_cast; nlinarith
      · rcases le_or_lt q (3 * (w / 5)) with h3 | h3
        · refine ⟨⟨(5/2) * (w/5), h * (21/25), w/5, h * (9/50), 3⟩, ?_, ?_, ?_⟩
          · rw [initBuckets_eq]; simp
          · push_cast; nlinarith
          · push_cast; nlinarith
        · rcases le_or_lt q (4 * (w / 5)) with h4 | h4
          · refine ⟨⟨(7/2) * (w/5), h * (21/25), w/5, h * (9/50), 4⟩, ?_, ?_, ?_⟩
            · rw [initBuckets_eq]; simp
            · push_cast; nlinarith
            · push_cast; nlinarith
          · refine ⟨⟨(9/2) * (w/5), h * (21/25), w/5, h * (9/50), 5⟩, ?_, ?_, ?_⟩
            · rw [initBuckets_eq]; simp
            · push_cast; nlinarith
            · push_cast; nlinarith

/-- C6 witness: the partition property evaluated on the live
`800 × 1040` canvas. -/
theorem initBuckets_partition_witness :
    (0:ℚ) < 800 ∧ (0:ℚ) < 1040 ∧
    ((initBuckets 800 1040).length = 5
     ∧ (∀ b ∈ initBuckets 800 1040, b.width = 800 / 5)
     ∧ (∀ b ∈ initBuckets 800 1040,
         b.x - b.width / 2 = ((b.number : ℚ) - 1) * (800 / 5)
         ∧ b.x + b.width / 2 = (b.number : ℚ) * (800 / 5))
     ∧ (∀ b ∈ initBuckets 800 1040, ∀ b' ∈ initBuckets 800 1040,
         b.number < b'.number → b.x + b.width / 2 ≤ b'.x - b'.width / 2)
     ∧ (∀ q : ℚ, 0 ≤ q → q ≤ 800 → ∃ b ∈ initBuckets 800 1040,
         b.x - b.width / 2 ≤ q ∧ q ≤ b.x + b.width / 2)) :=
  ⟨by norm_num, by norm_num,
    initBuckets_partition 800 1040 (by norm_num) (by norm_num)⟩

/-! ## C7 — no clamping in the board layout -/

/-- C7 counterexample: a container width of 70 gives canvas width 50,
for which `resizeCanvas` computes `pegRadius = floor(50/100) = 0` and
`ballRadius = floor(50/60) = 0` — zero, not a positive minimum, contrary
to the claim that degenerate sizes are clamped to positive minimums. -/
theorem resizeCanvas_no_clamp_cx :
    (resizeCanvas 70).pegRadius = 0 ∧ (resizeCanvas 70).ballRadius = 0
    ∧ (resizeCanvas 70).width = 50 := by
  refine ⟨?_, ?_, ?_⟩ <;> norm_num [resizeCanvas]

lemma floor_nonpos_iff (q : ℚ) : Int.floor q ≤ 0 ↔ q < 1 := by
  rw [← Int.lt_add_one_iff, zero_add, Int.floor_lt, Int.cast_one]

/-- C7 amended: the layout never throws (it is a total function of the
container width), but it applies no minimum clamp at all: the computed
`pegRadius` is non-positive exactly when the canvas width is below 100,
`ballRadius` exactly below 60 and `pegSpacing` exactly below 16 (for
negative container widths the values are negative). -/
theorem resizeCanvas_no_clamp_amended (cw : ℚ) :
    ((resizeCanvas cw).pegRadius ≤ 0 ↔ (resizeCanvas cw).width < 100)
    ∧ ((resizeCanvas cw).ballRadius ≤ 0 ↔ (resizeCanvas cw).width < 60)
    ∧ ((resizeCanvas cw).pegSpacing ≤ 0 ↔ (resizeCanvas cw).width < 16) := by
  refine ⟨?_, ?_, ?_⟩ <;>
    simp only [resizeCanvas, floor_nonpos_iff] <;>
    rw [div_lt_one (by norm_num)]

/-- C7 amended witness: the characterization applied at container width
70 (canvas width 50). -/
theorem resizeCanvas_no_clamp_amended_witness :
    ((resizeCanvas 70).pegRadius ≤ 0 ↔ (resizeCanvas 70).width < 100) :=
  (resizeCanvas_no_clamp_amended 70).1

/-! ## C3 — the playback driver is clamped but not total on length-1
trajectories -/

lemma findSeg_eq_none_of_neg (l : List KF) (e : ℚ)
    (hnn : ∀ kf ∈ l, 0 ≤ kf.time) (he : e < 0) : findSeg l e = none := by
  induction l with
  | nil => rfl
  | cons a t ih =>
    cases t with
    | nil => rfl
    | cons b r =>
      have ha : 0 ≤ a.time := hnn a (by simp)
      rw [findSeg, if_neg (by rintro ⟨h1, -⟩; linarith)]
      exact ih (fun kf hkf => hnn kf (List.mem_cons_of_mem _ hkf))

/-- When the elapsed time lies strictly before the segment start, the
clamped interpolation factor is zero and `interp` returns the segment
start point. -/
lemma interp_clamp_lo (s en : KF) (e : ℚ) (he : e < s.time) :
    interp s en e = (s.x, s.y) := by
  simp only [interp]
  split_ifs with h1 h2
  · have hd : (e - s.time) / (en.time - s.time) < 0 :=
      div_neg_of_neg_of_pos (by linarith) h1
    have hz : max 0 (min 1 ((e - s.time) / (en.time - s.time))) = 0 :=
      max_eq_left (le_trans (min_le_right _ _) (le_of_lt hd))
    rw [hz]; norm_num
  · linarith
  · have hz : max (0:ℚ) (min 1 0) = 0 := by norm_num
    rw [hz]; norm_num

/-- C3 counterexample: a trajectory of length 1 queried at a negative
elapsed time.  The claim requires the driver to place the ball at the
(first = only) keyframe; instead the source reads
`animationPath[1].time` off the end of the array and throws a
`TypeError` (modelled as `none`). -/
theorem updateBallAnimationPos_len1_cx :
    updateBallAnimationPos [⟨80, 871, 0⟩] 0 (-1) = none
    ∧ updateBallAnimationPos [⟨80, 871, 0⟩] 0 (-1) ≠ some (80, 871) := by
  have h : updateBallAnimationPos [⟨80, 871, 0⟩] 0 (-1) = none := by
    norm_num [updateBallAnimationPos, positionBelowDur]
  exact ⟨h, by rw [h]; simp⟩

/-- C3 amended: the playback driver clamps elapsed times at or beyond
the duration to the final keyframe of any non-empty trajectory, and for
a trajectory of at least two keyframes (with non-negative time offsets)
it is total and clamps negative elapsed times to the first keyframe;
but a length-1 trajectory queried at an elapsed time below the duration
dereferences the missing second keyframe and throws instead of staying
at the point. -/
theorem updateBallAnimationPos_amended (path : List KF) (dur e : ℚ) :
    (∀ hne : path ≠ [], dur ≤ e →
      updateBallAnimationPos path dur e
        = some ((path.getLast hne).x, (path.getLast hne).y))
    ∧ (2 ≤ path.length → (∀ kf ∈ path, 0 ≤ kf.time) → e < dur → e < 0 →
      ∃ p0, path.head? = some p0
        ∧ updateBallAnimationPos path dur e = some (p0.x, p0.y))
    ∧ (2 ≤ path.length → e < dur → (updateBallAnimationPos path dur e).isSome)
    ∧ (path.length = 1 → e < dur → updateBallAnimationPos path dur e = none) := by
  refine ⟨?_, ?_, ?_, ?_⟩
  · intro hne hdur
    rw [updateBallAnimationPos, if_pos hdur, List.getLast?_eq_getLast _ hne]
    rfl
  · intro hlen hnn hedur he
    obtain ⟨p0, p1, rest, rfl⟩ : ∃ p0 p1 rest, path = p0 :: p1 :: rest := by
      cases path with
      | nil => simp at hlen
      | cons a t =>
        cases t with
        | nil => simp at hlen
        | cons b r => exact ⟨a, b, r, rfl⟩
    refine ⟨p0, rfl, ?_⟩
    rw [updateBallAnimationPos, if_neg (by linarith)]
    have hfs : findSeg (p0 :: p1 :: rest) e = none :=
      findSeg_eq_none_of_neg _ _ hnn he
    have hlast : 0 ≤ ((p0 :: p1 :: rest).getLastD p0).time :=
      hnn _ (List.getLastD_mem_cons _ _)
    have h0 : 0 ≤ p0.time := hnn p0 (by simp)
    simp only [positionBelowDur, hfs]
    rw [if_neg (by intro hc; linarith)]
    show some (interp p0 p1 e) = some (p0.x, p0.y)
    rw [interp_clamp_lo p0 p1 e (by linarith)]
  · intro hlen hedur
    obtain ⟨p0, p1, rest, rfl⟩ : ∃ p0 p1 rest, path = p0 :: p1 :: rest := by
      cases path with
      | nil => simp at hlen
      | cons a t =>
        cases t with
        | nil => simp at hlen
        | cons b r => exact ⟨a, b, r, rfl⟩
    rw [updateBallAnimationPos, if_neg (by linarith)]
    cases hfs : findSeg (p0 :: p1 :: rest) e <;> simp [positionBelowDur, hfs]
  · intro hlen hedur
    obtain ⟨p, rfl⟩ : ∃ p, path = [p] := by
      cases path with
      | nil => simp at hlen
      | cons a t =>
        cases t with
        | nil => exact ⟨a, rfl⟩
        | cons b r => simp at hlen
    rw [updateBallAnimationPos, if_neg (by linarith)]
    rfl

/-- C3 amended witness: the negative-elapsed clamp evaluated on a
two-keyframe trajectory. -/
theorem updateBallAnimationPos_amended_witness :
    ∃ p0, ([⟨1, 2, 0⟩, ⟨3, 4, 10⟩] : List KF).head? = some p0
      ∧ updateBallAnimationPos [⟨1, 2, 0⟩, ⟨3, 4, 10⟩] 10 (-5) = some (p0.x, p0.y) :=
  (updateBallAnimationPos_amended [⟨1, 2, 0⟩, ⟨3, 4, 10⟩] 10 (-5)).2.1
    (by norm_num) (by intro kf hkf; fin_cases hkf <;> norm_num)
    (by norm_num) (by norm_num)

/-! ## C9 — the landing classifier and the 40% proximity rule -/

/-- C9: whenever the final keyframe's `x` lies within 40% of the target
bucket's width of that bucket's centre, the landing classifier of
`updateBallAnimation` yields the target bucket, so `handleBallLanding`
is called with a target match and (for an unhandled landing) increments
`successfulDrops`.  (Geometrically the 40% disc lies strictly inside
the target's own span, so the first-pass scan already finds the target;
the 40%-override branch cannot fire for an `x` inside a different
bucket's span.) -/
lemma scanBuckets_cons_hit (x : ℚ) (b : Bucket) (l : List Bucket)
    (h : b.x - b.width / 2 ≤ x ∧ x ≤ b.x + b.width / 2)
    (actual : Option ℕ) (minD : Option ℚ) :
    scanBuckets x (b :: l) actual minD = some b.number := by
  rw [scanBuckets, if_pos h]

lemma scanBuckets_cons_miss (x : ℚ) (b : Bucket) (l : List Bucket)
    (h : ¬(b.x - b.width / 2 ≤ x ∧ x ≤ b.x + b.width / 2))
    (actual : Option ℕ) (minD : Option ℚ) :
    ∃ a2 m2, scanBuckets x (b :: l) actual minD = scanBuckets x l a2 m2 := by
  rw [scanBuckets, if_neg h]
  by_cases hc : jsLtInf |x - b.x| minD = true
  · exact ⟨_, _, by rw [if_pos hc]⟩
  · exact ⟨_, _, by rw [if_neg hc]⟩

lemma initBuckets_eq_lits (w h : ℚ) : initBuckets w h =
    [bucketLit w h 1, bucketLit w h 2, bucketLit w h 3,
     bucketLit w h 4, bucketLit w h 5] := by
  rw [initBuckets_eq]
  simp only [bucketLit]
  norm_num

theorem classifyLanding_success (w h : ℚ) (t : ℕ) (x : ℚ) (hw : 0 < w)
    (ht1 : 1 ≤ t) (ht5 : t ≤ 5)
    (hx : |x - (((t : ℚ) - 1/2) * (w/5))| < (w/5) * (2/5)) :
    classifyLanding (initBuckets w h) t x = some t
    ∧ ∀ (s : GState) (b : ℤ), s.landingHandled = false →
        (handleBallLanding s b true).successfulDrops = s.successfulDrops + 1 := by
  have hw5 : (0:ℚ) < w / 5 := by positivity
  constructor
  · rw [abs_sub_lt_iff] at hx
    obtain ⟨hx1, hx2⟩ := hx
    have hhit : ∀ l actual minD, scanBuckets x (bucketLit w h t :: l) actual minD
        = some t := by
      intro l actual minD
      exact scanBuckets_cons_hit x _ l
        ⟨by simp only [bucketLit]; linarith, by simp only [bucketLit]; linarith⟩
        actual minD
    have hmiss : ∀ n, n + 1 ≤ t → ∀ l actual minD,
        ∃ a2 m2, scanBuckets x (bucketLit w h n :: l) actual minD
          = scanBuckets x l a2 m2 := by
      intro n hn l actual minD
      refine scanBuckets_cons_miss x _ l ?_ actual minD
      rintro ⟨c1, c2⟩
      simp only [bucketLit] at c2
      have hnt : (n : ℚ) + 1 ≤ (t : ℚ) := by exact_mod_cast hn
      nlinarith
    have hscan : scanBuckets x (initBuckets w h) none none = some t := by
      rw [initBuckets_eq_lits]
      interval_cases t
      · exact hhit _ none none
      · obtain ⟨a2, m2, e1⟩ := hmiss 1 (by norm_num) _ none none
        rw [e1]; exact hhit _ a2 m2
      · obtain ⟨a2, m2, e1⟩ := hmiss 1 (by norm_num) _ none none
        rw [e1]
        obtain ⟨a3, m3, e2⟩ := hmiss 2 (by norm_num) _ a2 m2
        rw [e2]; exact hhit _ a3 m3
      · obtain ⟨a2, m2, e1⟩ := hmiss 1 (by norm_num) _ none none
        rw [e1]
        obtain ⟨a3, m3, e2⟩ := hmiss 2 (by norm_num) _ a2 m2
        rw [e2]
        obtain ⟨a4, m4, e3⟩ := hmiss 3 (by norm_num) _ a3 m3
        rw [e3]; exact hhit _ a4 m4
      · obtain ⟨a2, m2, e1⟩ := hmiss 1 (by norm_num) _ none none
        rw [e1]
        obtain ⟨a3, m3, e2⟩ := hmiss 2 (by norm_num) _ a2 m2
        rw [e2]
        obtain ⟨a4, m4, e3⟩ := hmiss 3 (by norm_num) _ a3 m3
        rw [e3]
        obtain ⟨a5, m5, e4⟩ := hmiss 4 (by norm_num) _ a4 m4
        rw [e4]; exact hhit _ a5 m5
    rw [classifyLanding, hscan]
    simp
  · intro s b hlh
    simp [handleBallLanding, hlh]

/-- C9 witness: target bucket 3 on the live canvas, final `x = 390`
(distance 10 from the centre 400, within `0.4 * 160 = 64`). -/
theorem classifyLanding_success_witness :
    classifyLanding (initBuckets 800 1040) 3 390 = some 3
    ∧ ∀ (s : GState) (b : ℤ), s.landingHandled = false →
        (handleBallLanding s b true).successfulDrops = s.successfulDrops + 1 :=
  classifyLanding_success 800 1040 3 390 (by norm_num) (by norm_num)
    (by norm_num) (by norm_num)

/-! ## C10 — the statistics invariant -/

lemma statsInv_init : statsInv initGState := by
  constructor
  · exact le_refl 0
  · intro hb _
    simp [initGState] at hb

lemma statsInv_stepG (s : GState) (op : GOp) (h : statsInv s) :
    statsInv (stepG s op) := by
  obtain ⟨h1, h2⟩ := h
  cases op with
  | select b =>
    simp only [stepG]
    split_ifs
    · exact ⟨h1, h2⟩
    · exact ⟨h1, fun hb hl => h2 hb hl⟩
  | drop =>
    simp only [stepG]
    cases s.selectedBucket with
    | none => exact ⟨h1, h2⟩
    | some sb =>
      simp only
      split_ifs with hact hrange
      · exact ⟨h1, h2⟩
      · exact ⟨by simp; omega, by intro _ _; simp; omega⟩
      · exact ⟨h1, fun hb hl => h2 hb hl⟩
  | land b isT =>
    simp only [stepG]
    split_ifs with hguard
    · simp only [handleBallLanding]
      split_ifs with hlh hT
      · exact ⟨h1, by intro _ hl; simp [hlh] at hl⟩
      · refine ⟨?_, ?_⟩
        · simp
          exact h2 hguard.1 (by simpa using hlh)
        · intro _ hl
          simp at hl
      · refine ⟨by simpa using h1, ?_⟩
        · intro _ hl
          simp at hl
    · exact ⟨h1, h2⟩
  | reset =>
    simp only [stepG]
    split_ifs
    · exact ⟨by simpa using h1, by intro hb _; simp at hb⟩
    · exact ⟨h1, h2⟩

lemma statsInv_foldl (ops : List GOp) :
    ∀ s, statsInv s → statsInv (ops.foldl stepG s) := by
  induction ops with
  | nil => intro s h; exact h
  | cons op rest ih =>
    intro s h
    exact ih _ (statsInv_stepG s op h)

/-- C10: after any sequence of operations from the initial state,
`0 ≤ successfulDrops ≤ totalDrops`; a valid drop increments `totalDrops`
by exactly one and resets the landing flag; a completed landing whose
`landingHandled` flag is already set leaves `successfulDrops` unchanged,
and an unhandled target-match landing increments it by exactly one. -/
theorem gameStats_invariant :
    (∀ ops : List GOp, (runG ops).successfulDrops ≤ (runG ops).totalDrops)
    ∧ (∀ (s : GState) (sb : ℤ), s.isGameActive = false →
        s.selectedBucket = some sb → 1 ≤ sb → sb ≤ 5 →
        (stepG s .drop).totalDrops = s.totalDrops + 1
        ∧ (stepG s .drop).landingHandled = false)
    ∧ (∀ (s : GState) (b : ℤ) (isT : Bool), s.landingHandled = true →
        (stepG s (.land b isT)).successfulDrops = s.successfulDrops)
    ∧ (∀ (s : GState) (b : ℤ),
        s.hasBall = true → s.hasPath = true → s.isGameActive = true →
        s.landingHandled = false →
        (stepG s (.land b true)).successfulDrops = s.successfulDrops + 1) := by
  refine ⟨?_, ?_, ?_, ?_⟩
  · intro ops
    exact (statsInv_foldl ops initGState statsInv_init).1
  · intro s sb hact hsel h1 h5
    simp [stepG, hsel, hact, h1, h5]
  · intro s b isT hlh
    simp only [stepG]
    split_ifs with hguard
    · simp [handleBallLanding, hlh]
    · rfl
  · intro s b hball hpath hact hlh
    simp [stepG, hball, hpath, hact, handleBallLanding, hlh]

/-- C10 witness: a concrete session — select bucket 2, drop, land in the
target — keeps `successfulDrops ≤ totalDrops`, and the drop/landing
increments verified at concrete states. -/
theorem gameStats_invariant_witness :
    ((runG [.select 2, .drop, .land 2 true]).successfulDrops
      ≤ (runG [.select 2, .drop, .land 2 true]).totalDrops)
    ∧ (stepG { initGState with selectedBucket := some 2 } .drop).totalDrops
        = ({ initGState with selectedBucket := some 2 } : GState).totalDrops + 1 :=
  ⟨gameStats_invariant.1 [.select 2, .drop, .land 2 true],
   (gameStats_invariant.2.1 { initGState with selectedBucket := some 2 } 2
      rfl rfl (by norm_num) (by norm_num)).1⟩

/-! ## C5 — invalid targets are not rejected -/

/-- `mathStub` satisfies the one property of `Math.sqrt` the evaluated
runs rely on: arguments at least `36² = 1296` have square root at least
`36`. -/
lemma mathStub_far : ∀ q : ℚ, 1296 ≤ q → ¬ (mathStub.sqrt q < 36) := by
  intro q hq
  simp only [mathStub]
  rw [if_neg (by linarith)]
  norm_num

lemma buckets800_length : buckets800.length = 5 := rfl

lemma jsIndex_buckets800_none (i : ℤ) (h : i < 0 ∨ 5 ≤ i) :
    jsIndex buckets800 i = none := by
  rw [jsIndex, dif_neg]
  rintro ⟨h0, hlt⟩
  rw [buckets800_length] at hlt
  omega

/-- C5 counterexample: `createBall` with the invalid target 7 (stats
`totalDrops = 3` beforehand) does not reject: it increments
`totalDrops`, enters `dropping`, and silently substitutes the middle
bucket 3 for the requested target. -/
theorem createBall_invalid_target_cx :
    (createBall mathStub half 7 3 0 0).targetBucket = 3
    ∧ (createBall mathStub half 7 3 0 0).totalDrops = 4
    ∧ (createBall mathStub half 7 3 0 0).phase = .dropping := by
  refine ⟨?_, rfl, rfl⟩
  show (if (jsIndex buckets800 (7 - 1)).isNone then (Int.ceil ((5 : ℚ) / 2))
        else 7) = 3
  rw [jsIndex_buckets800_none (7 - 1) (by omega)]
  simp only [Option.isNone_none, if_true]
  rw [Int.ceil_eq_iff]
  norm_num

/-- C5 amended: an out-of-range target bucket is not rejected and does
not leave the state unchanged.  `createBall` increments `totalDrops`,
sets `gameState = 'dropping'` and substitutes the middle bucket
`Math.ceil(5/2) = 3` for the invalid target; `handleDropBall` likewise
proceeds past its guard, sets `isGameActive = true`, and then throws at
the direct-path construction before touching the statistics. -/
theorem invalid_target_not_rejected_amended (M : SimMath) (rng : RStream)
    (sb : ℤ) (td0 : ℕ) (dur0 : ℚ) (k : ℕ) (hsb : sb < 1 ∨ 5 < sb) :
    (createBall M rng sb td0 dur0 k).targetBucket = 3
    ∧ (createBall M rng sb td0 dur0 k).totalDrops = td0 + 1
    ∧ (createBall M rng sb td0 dur0 k).phase = .dropping
    ∧ (∀ s : GState, s.isGameActive = false → s.selectedBucket = some sb →
        (stepG s .drop).isGameActive = true
        ∧ (stepG s .drop).totalDrops = s.totalDrops
        ∧ (stepG s .drop).successfulDrops = s.successfulDrops) := by
  refine ⟨?_, rfl, rfl, ?_⟩
  · show (if (jsIndex buckets800 (sb - 1)).isNone then (Int.ceil ((5 : ℚ) / 2))
          else sb) = 3
    rw [jsIndex_buckets800_none (sb - 1) (by omega)]
    simp only [Option.isNone_none, if_true]
    rw [Int.ceil_eq_iff]
    norm_num
  · intro s hact hsel
    have hrange : ¬ (1 ≤ sb ∧ sb ≤ 5) := by omega
    simp [stepG, hsel, hact, hrange]

/-- C5 amended witness: the behaviour at the concrete invalid target 7. -/
theorem invalid_target_not_rejected_amended_witness :
    (createBall mathStub half 7 3 0 0).targetBucket = 3
    ∧ (createBall mathStub half 7 3 0 0).totalDrops = 3 + 1
    ∧ (createBall mathStub half 7 3 0 0).phase = .dropping
    ∧ (∀ s : GState, s.isGameActive = false → s.selectedBucket = some 7 →
        (stepG s .drop).isGameActive = true
        ∧ (stepG s .drop).totalDrops = s.totalDrops
        ∧ (stepG s .drop).successfulDrops = s.successfulDrops) :=
  invalid_target_not_rejected_amended mathStub half 7 3 0 0 (by omega)

/-! ## Run evaluation machinery for `generateAnimationPath`

The three concrete runs all keep the ball at `y ≥ 871` while every peg
sits at `y ≤ 546` (with radius 8), so no collision branch can fire: the
squared distance to every peg is at least `36² = 1296`, and `Math.sqrt`
of such a value is at least `36 = pegRadius + 2·ballRadius + 2`.  The
lemmas below discharge the three per-step peg loops under that single
assumption `SqrtFar` about the abstract `sqrt`. -/

lemma mathStub_sqrtFar : SqrtFar mathStub := mathStub_far

lemma mathStub2_sqrtFar : SqrtFar mathStub2 := by
  intro q hq
  simp only [mathStub2]
  rw [if_neg (by linarith)]
  norm_num

lemma pegs800_entries : ∀ p ∈ pegs800, p.r = 8 ∧ p.y ≤ 546 := by
  with_unfolding_all decide

/-- Any point with `y ≥ 640` is at squared distance at least `1296` from
every peg of the live board, so the collision condition is false. -/
lemma far_cond (M : SimMath) (hM : SqrtFar M) (x y : ℚ) (hy : 640 ≤ y) :
    ∀ p ∈ pegs800,
      ¬ (M.sqrt ((x - p.x) * (x - p.x) + (y - p.y) * (y - p.y))
          < p.r + 13 * 2 + 2) := by
  intro p hp
  obtain ⟨hr, hpy⟩ := pegs800_entries p hp
  rw [hr]
  have h1296 : (1296:ℚ) ≤ (x - p.x) * (x - p.x) + (y - p.y) * (y - p.y) := by
    nlinarith [mul_self_nonneg (x - p.x), mul_self_nonneg (y - p.y)]
  have := hM _ h1296
  intro hc
  exact this (by linarith)

lemma deflectPeg_nohit (E : SimEnv) (time : ℚ) (st : DeflSt) (p : Peg)
    (h : ¬ (E.M.sqrt ((st.x - p.x) * (st.x - p.x) + (st.y - p.y) * (st.y - p.y))
        < p.r + E.ballRadius * 2 + 2)) :
    deflectPeg E time st p = st := by
  simp only [deflectPeg]
  rw [if_neg h]

lemma foldl_deflectPeg_nohit (E : SimEnv) (time : ℚ) :
    ∀ (l : List Peg) (st : DeflSt),
      (∀ p ∈ l, ¬ (E.M.sqrt ((st.x - p.x) * (st.x - p.x)
          + (st.y - p.y) * (st.y - p.y)) < p.r + E.ballRadius * 2 + 2)) →
      l.foldl (deflectPeg E time) st = st := by
  intro l
  induction l with
  | nil => intro st h; rfl
  | cons p t ih =>
    intro st h
    rw [List.foldl_cons, deflectPeg_nohit E time st p (h p (by simp))]
    exact ih st (fun q hq => h q (by simp [hq]))

lemma pushOut_nohit (E : SimEnv) (x y : ℚ) (acc : ℚ × ℚ) (p : Peg)
    (h : ¬ (E.M.sqrt ((x - p.x) * (x - p.x) + (y - p.y) * (y - p.y))
        < p.r + E.ballRadius * 2 + 2)) :
    pushOut E x y acc p = acc := by
  simp only [pushOut]
  rw [if_neg h]

lemma foldl_pushOut_nohit (E : SimEnv) (x y : ℚ) :
    ∀ (l : List Peg) (acc : ℚ × ℚ),
      (∀ p ∈ l, ¬ (E.M.sqrt ((x - p.x) * (x - p.x) + (y - p.y) * (y - p.y))
          < p.r + E.ballRadius * 2 + 2)) →
      l.foldl (pushOut E x y) acc = acc := by
  intro l
  induction l with
  | nil => intro acc h; rfl
  | cons p t ih =>
    intro acc h
    rw [List.foldl_cons, pushOut_nohit E x y acc p (h p (by simp))]
    exact ih acc (fun q hq => h q (by simp [hq]))

lemma hitCountAt_nohit (E : SimEnv) (x y : ℚ)
    (h : ∀ p ∈ E.pegs, ¬ (E.M.sqrt ((x - p.x) * (x - p.x)
        + (y - p.y) * (y - p.y)) < p.r + E.ballRadius * 2 + 2)) :
    hitCountAt E x y = 0 := by
  rw [hitCountAt, List.countP_eq_zero]
  intro p hp
  simpa using h p hp

lemma foldl_simStep_done (E : SimEnv) :
    ∀ (l : List ℕ) (s : SimSt), s.done = true →
      l.foldl (fun s j => simStep E (j + 1) s) s = s := by
  intro l
  induction l with
  | nil => intro s _; rfl
  | cons j t ih =>
    intro s h
    rw [List.foldl_cons, simStep, if_pos h]
    exact ih s h

lemma run1_setup (M : SimMath) (r k : ℕ) (v : Bool) (d : ℚ) :
    setupAttempt (env1 M) 0 r v d k =
      ⟨[⟨0, 871, 0⟩], 0, 871, 1/20, 7/5, 0, false, none, v, d, k + 6, false⟩ := by
  simp only [setupAttempt, env1, half, jsSign]
  norm_num

lemma run1_step1 (M : SimMath) (hM : SqrtFar M) (v : Bool) (d : ℚ) (k : ℕ) :
    simStep (env1 M) 1 ⟨[⟨0, 871, 0⟩], 0, 871, 1/20, 7/5, 0, false, none, v, d, k, false⟩
      = ⟨[⟨0, 871, 0⟩, ⟨13, 2794229/3200, 20⟩], 13, 2794229/3200,
          -(591/20000), 7029/4000, 0, true, none, v, d, k, false⟩ := by
  simp only [simStep, env1]
  rw [foldl_deflectPeg_nohit _ _ _ _ (far_cond M hM 0 871 (by norm_num))]
  norm_num
  rw [foldl_pushOut_nohit _ _ _ _ _ (far_cond M hM 13 (2794229/3200) (by norm_num))]
  norm_num
  rw [hitCountAt_nohit _ _ _ (far_cond M hM 13 (2794229/3200) (by norm_num))]

lemma run1_step2 (M : SimMath) (hM : SqrtFar M) (v : Bool) (d : ℚ) (k : ℕ) :
    simStep (env1 M) 2 ⟨[⟨0, 871, 0⟩, ⟨13, 2794229/3200, 20⟩], 13, 2794229/3200,
        -(591/20000), 7029/4000, 0, true, none, v, d, k, false⟩
      = ⟨[⟨0, 871, 0⟩, ⟨13, 2794229/3200, 20⟩, ⟨13, 4368/5, 19469420/844371⟩],
          13, 280267271/320000, 349281/20000000, 844371/400000, 0, true, none,
          false, 19469420/844371, k, true⟩ := by
  simp only [simStep, env1]
  rw [foldl_deflectPeg_nohit _ _ _ _ (far_cond M hM 13 (2794229/3200) (by norm_num))]
  norm_num [List.getLastD_cons, List.getLastD_nil]

lemma run1_attempt (M : SimMath) (hM : SqrtFar M) (r k : ℕ) (v : Bool) (d : ℚ) :
    runSteps (env1 M) (setupAttempt (env1 M) 0 r v d k)
      = ⟨[⟨0, 871, 0⟩, ⟨13, 2794229/3200, 20⟩, ⟨13, 4368/5, 19469420/844371⟩],
          13, 280267271/320000, 349281/20000000, 844371/400000, 0, true, none,
          false, 19469420/844371, k + 6, true⟩ := by
  rw [run1_setup, runSteps]
  rw [show List.range 150 = 0 :: 1 :: List.range' 2 148 from rfl]
  rw [List.foldl_cons, List.foldl_cons]
  norm_num
  rw [run1_step1 M hM, run1_step2 M hM]
  exact foldl_simStep_done _ _ _ rfl

lemma run1_validate (M : SimMath) (k : ℕ) :
    validateAttempt (env1 M)
      ⟨[⟨0, 871, 0⟩, ⟨13, 2794229/3200, 20⟩, ⟨13, 4368/5, 19469420/844371⟩],
        13, 280267271/320000, 349281/20000000, 844371/400000, 0, true, none,
        false, 19469420/844371, k, true⟩ = false := by
  norm_num [validateAttempt, env1]

lemma run1_attempts_exhaust (M : SimMath) (hM : SqrtFar M) :
    ∀ (fuel r : ℕ), r + fuel = 101 → r ≤ 99 →
      ∀ (v : Bool) (d : ℚ) (k : ℕ),
      runAttempts (env1 M) 0 fuel r v d k
        = (⟨[⟨0, 871, 0⟩, ⟨13, 2794229/3200, 20⟩, ⟨13, 4368/5, 19469420/844371⟩],
            13, 280267271/320000, 349281/20000000, 844371/400000, 0, true, none,
            false, 19469420/844371, k + 7 * (100 - r), true⟩, false) := by
  intro fuel
  induction fuel with
  | zero => intro r h1 h2; omega
  | succ f ih =>
    intro r h1 h2 v d k
    simp only [runAttempts]
    rw [run1_attempt M hM, run1_validate M]
    simp only [Bool.false_eq_true, if_false]
    by_cases hr : r + 1 < 100
    · rw [if_pos hr, ih (r + 1) (by omega) (by omega) false (19469420/844371) (k + 6 + 1)]
      have hk : k + 6 + 1 + 7 * (100 - (r + 1)) = k + 7 * (100 - r) := by omega
      rw [hk]
    · rw [if_neg hr]
      have hr100 : 100 - r = 1 := by omega
      rw [hr100]

lemma jsIndex_buckets800_b1 : jsIndex buckets800 0 = some ⟨80, 4368/5, 160, 936/5, 1⟩ := by
  with_unfolding_all rfl

lemma jsIndex_buckets800_b3 : jsIndex buckets800 2 = some ⟨400, 4368/5, 160, 936/5, 3⟩ := by
  with_unfolding_all rfl

set_option maxRecDepth 40000 in
lemma genPath_run1_bridge (M : SimMath) :
    generateAnimationPath800 M half 0 871 1 0 0
      = (let r := runAttempts (env1 M) 0 101 0 false 0 1
         if r.2 then
          { path := some r.1.path, dur := r.1.dur, hitWall := r.1.hitWall,
            hitCount := r.1.hitCount, accepted := true, k := r.1.k }
         else
          { path := none, dur := r.1.dur, hitWall := r.1.hitWall,
            hitCount := r.1.hitCount, accepted := false, k := r.1.k }) := by
  with_unfolding_all rfl

lemma genPath_run1 (M : SimMath) (hM : SqrtFar M) :
    generateAnimationPath800 M half 0 871 1 0 0
      = { path := none, dur := 19469420/844371, hitWall := true,
          hitCount := 0, accepted := false, k := 701 } := by
  rw [genPath_run1_bridge M]
  rw [run1_attempts_exhaust M hM 101 0 (by norm_num) (by norm_num) false 0 1]
  norm_num

/-! ### A single accepted run for edge bucket 1 from `startX = 80` -/

lemma run80_setup (M : SimMath) (r k : ℕ) (v : Bool) (d : ℚ) :
    setupAttempt (env1 M) 80 r v d k =
      ⟨[⟨80, 871, 0⟩], 80, 871, -(3/4), 7/5, 0, false, none, v, d, k + 6, false⟩ := by
  simp only [setupAttempt, env1, half, jsSign]
  norm_num

lemma run80_step1 (M : SimMath) (hM : SqrtFar M) (v : Bool) (d : ℚ) (k : ℕ) :
    simStep (env1 M) 1 ⟨[⟨80, 871, 0⟩], 80, 871, -(3/4), 7/5, 0, false, none, v, d, k, false⟩
      = ⟨[⟨80, 871, 0⟩, ⟨50609/640, 2794229/3200, 20⟩], 50609/640, 2794229/3200,
          -(591/800), 7029/4000, 0, false, none, v, d, k, false⟩ := by
  simp only [simStep, env1]
  rw [foldl_deflectPeg_nohit _ _ _ _ (far_cond M hM 80 871 (by norm_num))]
  norm_num
  rw [foldl_pushOut_nohit _ _ _ _ _ (far_cond M hM (50609/640) (2794229/3200) (by norm_num))]
  norm_num
  rw [hitCountAt_nohit _ _ _ (far_cond M hM (50609/640) (2794229/3200) (by norm_num))]

lemma run80_step2 (M : SimMath) (hM : SqrtFar M) (v : Bool) (d : ℚ) (k : ℕ) :
    simStep (env1 M) 2 ⟨[⟨80, 871, 0⟩, ⟨50609/640, 2794229/3200, 20⟩], 50609/640, 2794229/3200,
        -(591/800), 7029/4000, 0, false, none, v, d, k, false⟩
      = ⟨[⟨80, 871, 0⟩, ⟨50609/640, 2794229/3200, 20⟩,
          ⟨28438412207/360264960, 4368/5, 19469420/844371⟩],
          10005373/128000, 280267271/320000, -(116427/160000), 844371/400000, 0, false, none,
          v, 19469420/844371, k, true⟩ := by
  simp only [simStep, env1]
  rw [foldl_deflectPeg_nohit _ _ _ _ (far_cond M hM (50609/640) (2794229/3200) (by norm_num))]
  norm_num [List.getLastD_cons, List.getLastD_nil, abs_le]

lemma run80_attempt (M : SimMath) (hM : SqrtFar M) (r k : ℕ) (v : Bool) (d : ℚ) :
    runSteps (env1 M) (setupAttempt (env1 M) 80 r v d k)
      = ⟨[⟨80, 871, 0⟩, ⟨50609/640, 2794229/3200, 20⟩,
          ⟨28438412207/360264960, 4368/5, 19469420/844371⟩],
          10005373/128000, 280267271/320000, -(116427/160000), 844371/400000, 0, false, none,
          v, 19469420/844371, k + 6, true⟩ := by
  rw [run80_setup, runSteps]
  rw [show List.range 150 = 0 :: 1 :: List.range' 2 148 from rfl]
  rw [List.foldl_cons, List.foldl_cons]
  norm_num
  rw [run80_step1 M hM, run80_step2 M hM]
  exact foldl_simStep_done _ _ _ rfl

lemma run80_validate (M : SimMath) (v : Bool) (k : ℕ) :
    validateAttempt (env1 M)
      ⟨[⟨80, 871, 0⟩, ⟨50609/640, 2794229/3200, 20⟩,
        ⟨28438412207/360264960, 4368/5, 19469420/844371⟩],
        10005373/128000, 280267271/320000, -(116427/160000), 844371/400000, 0, false, none,
        v, 19469420/844371, k, true⟩ = true := by
  norm_num [validateAttempt, env1, jsSign, List.getLastD_cons, List.getLastD_nil, abs_le]

lemma run80_attempts (M : SimMath) (hM : SqrtFar M) (r : ℕ) (v : Bool) (d : ℚ) (k : ℕ) :
    runAttempts (env1 M) 80 101 r v d k
      = (⟨[⟨80, 871, 0⟩, ⟨50609/640, 2794229/3200, 20⟩,
           ⟨28438412207/360264960, 4368/5, 19469420/844371⟩],
           10005373/128000, 280267271/320000, -(116427/160000), 844371/400000, 0, false, none,
           true, 19469420/844371, k + 6, true⟩, true) := by
  rw [show (101 : ℕ) = 100 + 1 from rfl, runAttempts]
  rw [run80_attempt M hM, run80_validate M]
  simp

set_option maxRecDepth 40000 in
lemma genPath_run80_bridge (M : SimMath) :
    generateAnimationPath800 M half 80 871 1 0 0
      = (let r := runAttempts (env1 M) 80 101 0 false 0 1
         if r.2 then
          { path := some r.1.path, dur := r.1.dur, hitWall := r.1.hitWall,
            hitCount := r.1.hitCount, accepted := true, k := r.1.k }
         else
          { path := none, dur := r.1.dur, hitWall := r.1.hitWall,
            hitCount := r.1.hitCount, accepted := false, k := r.1.k }) := by
  with_unfolding_all rfl

lemma genPath_run80 (M : SimMath) (hM : SqrtFar M) :
    generateAnimationPath800 M half 80 871 1 0 0
      = { path := some [⟨80, 871, 0⟩, ⟨50609/640, 2794229/3200, 20⟩,
                        ⟨28438412207/360264960, 4368/5, 19469420/844371⟩],
          dur := 19469420/844371, hitWall := false, hitCount := 0,
          accepted := true, k := 7 } := by
  rw [genPath_run80_bridge M]
  rw [run80_attempts M hM 0 false 0 1]
  norm_num

/-! ### A single accepted run for centre bucket 3 from `startX = 700` -/

lemma run3_setup (M : SimMath) (r k : ℕ) (v : Bool) (d : ℚ) :
    setupAttempt (env3 M) 700 r v d k =
      ⟨[⟨700, 871, 0⟩], 700, 871, -(3/5), 29/25, 0, false, none, v, d, k + 5, false⟩ := by
  simp only [setupAttempt, env3, half, jsSign]
  norm_num

lemma run3_step1 (M : SimMath) (hM : SqrtFar M) (v : Bool) (d : ℚ) (k : ℕ) :
    simStep (env3 M) 1 ⟨[⟨700, 871, 0⟩], 700, 871, -(3/5), 29/25, 0, false, none, v, d, k, false⟩
      = ⟨[⟨700, 871, 0⟩, ⟨559409/800, 13966393/16000, 20⟩], 559409/800, 13966393/16000,
          -(591/1000), 30393/20000, 0, false, none, v, d, k, false⟩ := by
  simp only [simStep, env3]
  rw [foldl_deflectPeg_nohit _ _ _ _ (far_cond M hM 700 871 (by norm_num))]
  norm_num
  rw [foldl_pushOut_nohit _ _ _ _ _ (far_cond M hM (559409/800) (13966393/16000) (by norm_num))]
  norm_num
  rw [hitCountAt_nohit _ _ _ (far_cond M hM (559409/800) (13966393/16000) (by norm_num))]

lemma run3_step2 (M : SimMath) (hM : SqrtFar M) (v : Bool) (d : ℚ) (k : ℕ) :
    simStep (env3 M) 2 ⟨[⟨700, 871, 0⟩, ⟨559409/800, 13966393/16000, 20⟩], 559409/800,
        13966393/16000, -(591/1000), 30393/20000, 0, false, none, v, d, k, false⟩
      = ⟨[⟨700, 871, 0⟩, ⟨559409/800, 13966393/16000, 20⟩,
          ⟨1398612293179/2000750400, 4368/5, 97442140/3751407⟩],
          111765373/160000, 1400390707/1600000, -(116427/200000), 3751407/2000000, 0, false,
          none, false, 97442140/3751407, k, true⟩ := by
  simp only [simStep, env3]
  rw [foldl_deflectPeg_nohit _ _ _ _ (far_cond M hM (559409/800) (13966393/16000) (by norm_num))]
  norm_num [List.getLastD_cons, List.getLastD_nil, abs_le]

lemma run3_attempt (M : SimMath) (hM : SqrtFar M) (r k : ℕ) (v : Bool) (d : ℚ) :
    runSteps (env3 M) (setupAttempt (env3 M) 700 r v d k)
      = ⟨[⟨700, 871, 0⟩, ⟨559409/800, 13966393/16000, 20⟩,
          ⟨1398612293179/2000750400, 4368/5, 97442140/3751407⟩],
          111765373/160000, 1400390707/1600000, -(116427/200000), 3751407/2000000, 0, false,
          none, false, 97442140/3751407, k + 5, true⟩ := by
  rw [run3_setup, runSteps]
  rw [show List.range 150 = 0 :: 1 :: List.range' 2 148 from rfl]
  rw [List.foldl_cons, List.foldl_cons]
  norm_num
  rw [run3_step1 M hM, run3_step2 M hM]
  exact foldl_simStep_done _ _ _ rfl

lemma run3_validate (M : SimMath) (k : ℕ) :
    validateAttempt (env3 M)
      ⟨[⟨700, 871, 0⟩, ⟨559409/800, 13966393/16000, 20⟩,
        ⟨1398612293179/2000750400, 4368/5, 97442140/3751407⟩],
        111765373/160000, 1400390707/1600000, -(116427/200000), 3751407/2000000, 0, false,
        none, false, 97442140/3751407, k, true⟩ = true := by
  norm_num [validateAttempt, env3, jsSign, List.getLastD_cons, List.getLastD_nil, abs_le]

lemma run3_attempts (M : SimMath) (hM : SqrtFar M) (r : ℕ) (v : Bool) (d : ℚ) (k : ℕ) :
    runAttempts (env3 M) 700 101 r v d k
      = (⟨[⟨700, 871, 0⟩, ⟨559409/800, 13966393/16000, 20⟩,
           ⟨1398612293179/2000750400, 4368/5, 97442140/3751407⟩],
           111765373/160000, 1400390707/1600000, -(116427/200000), 3751407/2000000, 0, false,
           none, true, 97442140/3751407, k + 5, true⟩, true) := by
  rw [show (101 : ℕ) = 100 + 1 from rfl, runAttempts]
  rw [run3_attempt M hM, run3_validate M]
  simp

set_option maxRecDepth 40000 in
lemma genPath_run3_bridge (M : SimMath) :
    generateAnimationPath800 M half 700 871 3 0 0
      = (let r := runAttempts (env3 M) 700 101 0 false 0 1
         if r.2 then
          { path := some r.1.path, dur := r.1.dur, hitWall := r.1.hitWall,
            hitCount := r.1.hitCount, accepted := true, k := r.1.k }
         else
          { path := none, dur := r.1.dur, hitWall := r.1.hitWall,
            hitCount := r.1.hitCount, accepted := false, k := r.1.k }) := by
  with_unfolding_all rfl

lemma genPath_run3 (M : SimMath) (hM : SqrtFar M) :
    generateAnimationPath800 M half 700 871 3 0 0
      = { path := some [⟨700, 871, 0⟩, ⟨559409/800, 13966393/16000, 20⟩,
                        ⟨1398612293179/2000750400, 4368/5, 97442140/3751407⟩],
          dur := 97442140/3751407, hitWall := false, hitCount := 0,
          accepted := true, k := 6 } := by
  rw [genPath_run3_bridge M]
  rw [run3_attempts M hM 0 false 0 1]
  norm_num

/-- C1: the synthesizer does NOT always return a trajectory ending inside the
target bucket.  For every sqrt oracle that is exact far from the pegs, the
call `generateAnimationPath(700, 871, 3)` on the 800 × 1040 board is accepted
on the very first attempt (the in-loop rejection is voided by the
`isValidPath = true` reset on line 1584, and the final-direction check passes
because the ball still moves toward the target), yet the final keyframe's
`x = 1398612293179/2000750400 ≈ 699.04` lies outside bucket 3's safety span
`(336, 464)` — indeed outside bucket 3's span `[320, 480]` altogether, inside
bucket 5's span `[640, 800]`.  Its `y` does equal the bucket top `4368/5`. -/
theorem generateAnimationPath_misses_target (M : SimMath) (hM : SqrtFar M) :
    (generateAnimationPath800 M half 700 871 3 0 0).accepted = true ∧
    (generateAnimationPath800 M half 700 871 3 0 0).path
      = some [⟨700, 871, 0⟩, ⟨559409/800, 13966393/16000, 20⟩,
              ⟨1398612293179/2000750400, 4368/5, 97442140/3751407⟩] ∧
    ¬ (336 < (1398612293179 : ℚ)/2000750400 ∧ (1398612293179 : ℚ)/2000750400 < 464) ∧
    640 ≤ (1398612293179 : ℚ)/2000750400 ∧ (1398612293179 : ℚ)/2000750400 ≤ 800 := by
  refine ⟨?_, ?_, by norm_num, by norm_num, by norm_num⟩
  · rw [genPath_run3 M hM]
  · rw [genPath_run3 M hM]

theorem generateAnimationPath_misses_target_witness :
    SqrtFar mathStub ∧
    ((generateAnimationPath800 mathStub half 700 871 3 0 0).accepted = true ∧
     (generateAnimationPath800 mathStub half 700 871 3 0 0).path
       = some [⟨700, 871, 0⟩, ⟨559409/800, 13966393/16000, 20⟩,
               ⟨1398612293179/2000750400, 4368/5, 97442140/3751407⟩] ∧
     ¬ (336 < (1398612293179 : ℚ)/2000750400 ∧ (1398612293179 : ℚ)/2000750400 < 464) ∧
     640 ≤ (1398612293179 : ℚ)/2000750400 ∧ (1398612293179 : ℚ)/2000750400 ≤ 800) :=
  ⟨mathStub_sqrtFar, generateAnimationPath_misses_target mathStub mathStub_sqrtFar⟩

/-- C2: synthesis exhaustion is NOT resolved silently by a guarantee
fallback.  From `startX = 0` aimed at bucket 1 every one of the 100 attempts
bounces off the left wall with no peg hits and fails the edge-bucket check,
and the exhaustion block then assigns to the `const maxRetries` (line 1643),
so the call throws a `TypeError` (`path = none`) instead of returning any
trajectory — while the global `animationDuration` keeps the last failed
attempt's value `19469420/844371 ≈ 23 ms`. -/
theorem generateAnimationPath_exhaustion_throws (M : SimMath) (hM : SqrtFar M) :
    (generateAnimationPath800 M half 0 871 1 0 0).path = none ∧
    (generateAnimationPath800 M half 0 871 1 0 0).accepted = false ∧
    (generateAnimationPath800 M half 0 871 1 0 0).dur = 19469420/844371 := by
  rw [genPath_run1 M hM]
  exact ⟨rfl, rfl, rfl⟩

theorem generateAnimationPath_exhaustion_throws_witness :
    SqrtFar mathStub ∧
    ((generateAnimationPath800 mathStub half 0 871 1 0 0).path = none ∧
     (generateAnimationPath800 mathStub half 0 871 1 0 0).accepted = false ∧
     (generateAnimationPath800 mathStub half 0 871 1 0 0).dur = 19469420/844371) :=
  ⟨mathStub_sqrtFar, generateAnimationPath_exhaustion_throws mathStub mathStub_sqrtFar⟩

/-- C4: the recorded `animationDuration` does NOT always equal the last
keyframe's time.  The invalid-target fallback (lines 1280-1283) returns the
two-point path `[(0, 52, 0), (0, 1090, 1000)]` whose last keyframe has time
1000, but returns before `animationDuration` is ever written, so the global
keeps its prior value (here 0). -/
theorem fallback_duration_mismatch :
    generateAnimationPath800 mathStub half 0 52 7 0 0
      = { path := some [⟨0, 52, 0⟩, ⟨0, 1090, 1000⟩], dur := 0, hitWall := false,
          hitCount := 0, accepted := false, k := 0 } ∧
    (generateAnimationPath800 mathStub half 0 52 7 0 0).dur
      ≠ (([⟨0, 52, 0⟩, ⟨0, 1090, 1000⟩] : List KF).getLastD ⟨0, 0, 0⟩).time := by
  have h : generateAnimationPath800 mathStub half 0 52 7 0 0
      = { path := some [⟨0, 52, 0⟩, ⟨0, 1090, 1000⟩], dur := 0, hitWall := false,
          hitCount := 0, accepted := false, k := 0 } := by
    with_unfolding_all rfl
  refine ⟨h, ?_⟩
  rw [h]
  norm_num [List.getLastD_cons, List.getLastD_nil]

/-- C8 counterexample: an accepted trajectory for edge bucket 1 with NO peg
hits at all.  The drop from `startX = 80` (above the target bucket's centre)
crosses the bucket top in two steps: the validation gate accepts it because
`hitWall` is false, even though `hitCount = 0 < 4`; every keyframe of the
returned path is at squared distance at least `36² = 1296` from every peg, so
the path genuinely hits no peg. -/
theorem edge_bucket_zero_hits_accepted :
    (generateAnimationPath800 mathStub half 80 871 1 0 0).accepted = true ∧
    (generateAnimationPath800 mathStub half 80 871 1 0 0).hitCount = 0 ∧
    (generateAnimationPath800 mathStub half 80 871 1 0 0).hitWall = false ∧
    (generateAnimationPath800 mathStub half 80 871 1 0 0).path
      = some [⟨80, 871, 0⟩, ⟨50609/640, 2794229/3200, 20⟩,
              ⟨28438412207/360264960, 4368/5, 19469420/844371⟩] ∧
    ([⟨80, 871, 0⟩, ⟨50609/640, 2794229/3200, 20⟩,
      ⟨28438412207/360264960, 4368/5, 19469420/844371⟩] : List KF).all
        (fun kf => pegs800.all (fun p => decide (1296 ≤
          (kf.x - p.x) * (kf.x - p.x) + (kf.y - p.y) * (kf.y - p.y)))) = true := by
  refine ⟨?_, ?_, ?_, ?_, ?_⟩
  · rw [genPath_run80 mathStub mathStub_sqrtFar]
  · rw [genPath_run80 mathStub mathStub_sqrtFar]
  · rw [genPath_run80 mathStub mathStub_sqrtFar]
  · rw [genPath_run80 mathStub mathStub_sqrtFar]
  · with_unfolding_all decide

/-- C8: what the gate actually enforces.  The minimum-hit-count rule only
fires when the path also touched a wall (`hitWall`), and it reads the
per-step `hitCount` of the final simulation step, not a cumulative count:
whenever the gate accepts an edge-bucket state that did touch a wall, that
state's (per-step) `hitCount` is at least 4. -/
theorem edge_min_hits_amended (E : SimEnv) (s : SimSt)
    (hE : E.targetIdx = 1 ∨ E.targetIdx = 5)
    (hW : s.hitWall = true)
    (hacc : validateAttempt E s = true) :
    4 ≤ s.hitCount := by
  by_contra hlt
  push_neg at hlt
  simp only [validateAttempt] at hacc
  simp at hacc
  have hD : ¬E.targetIdx = 1 ∧ ¬E.targetIdx = 5 ∨ s.hitWall = false ∨ 4 ≤ s.hitCount := by
    split at hacc
    · exact hacc.2
    · exact hacc
  rcases hD with h | h | h
  · rcases hE with h1 | h1
    · exact h.1 h1
    · exact h.2 h1
  · rw [hW] at h; simp at h
  · omega

theorem edge_min_hits_amended_witness :
    ((env1 mathStub).targetIdx = 1 ∨ (env1 mathStub).targetIdx = 5) ∧
    (SimSt.mk [] 0 0 0 0 5 true none false 0 0 true).hitWall = true ∧
    validateAttempt (env1 mathStub) (SimSt.mk [] 0 0 0 0 5 true none false 0 0 true) = true ∧
    4 ≤ (SimSt.mk [] 0 0 0 0 5 true none false 0 0 true).hitCount :=
  ⟨Or.inl rfl, rfl, by with_unfolding_all rfl,
   edge_min_hits_amended (env1 mathStub) (SimSt.mk [] 0 0 0 0 5 true none false 0 0 true)
     (Or.inl rfl) rfl (by with_unfolding_all rfl)⟩

end Plinko
